import Mathlib

/-!
Shallow embedding of `src/shopipy_enderelijas/shop.py` (Shopi-Py): a shop
catalog rendered as pages with selection widgets and back-navigation.

Pages are mutable Python objects referenced from several places (a
`ShopCategory.navigate_to` reference, `NavigationHandler` fields, the
session's current page), so the embedding models the object store
explicitly: a `Heap` maps page references (`PageId`) to their current
`Page` record, and the mutating operation (`NavigationHandler.navigate`,
which may append a `BackButton` to a page's control list) is a function
from heap to heap.  Everything else in the module is pure construction
over strings and lists and is translated directly.
-/

namespace ShopiPy

/-- Reference identity of a Python `ShopPage` object: pages are compared and
mutated by reference in the source, so the embedding keys them by id. -/
abbrev PageId := Nat

/-- Embeds `Shop.__init__`: title, currency, optional footer and description. -/
structure Shop where
  title : String
  currency : String
  footer : Option String
  description : Option String
  deriving DecidableEq, Repr

/-- The dataclass `ShopItem`: id, name, description, price, category_id,
optional icon, extra display fields (default empty list). -/
structure ShopItem where
  id : String
  name : String
  description : String
  price : Nat
  category_id : String
  icon : Option String
  fields : List String
  deriving DecidableEq, Repr

/-- The dataclass `ShopCategory`; its `navigate_to` is a reference to an
already-constructed page, embedded as a `PageId`. -/
structure ShopCategory where
  id : String
  name : String
  navigate_to : PageId
  description : Option String
  icon : Option String
  deriving DecidableEq, Repr

/-- One element of a page's listing.  `ShopPage.__init__` takes
`Union[List[ShopItem], List[ShopCategory]]` but never validates
homogeneity, so a listing element is either variant and mixed lists are
representable, exactly as at runtime. -/
inductive Entry where
  | item : ShopItem → Entry
  | category : ShopCategory → Entry
  deriving DecidableEq, Repr

/-- Duck-typed `x.id`, defined on both variants (both dataclasses have an
`id` attribute, which is why the selectors work on either). -/
def Entry.id : Entry → String
  | .item i => i.id
  | .category c => c.id

/-- Python truthiness of a `ShopItem`/`ShopCategory` instance: neither
dataclass defines `__bool__` or `__len__`, so `bool(x)` is `True` for every
instance.  Used to embed `if not selected_category:` faithfully. -/
def Entry.pyTruthy (_ : Entry) : Bool := true

/-- One `discord.Embed` field as produced by `embed.add_field`. -/
structure EmbedField where
  name : String
  value : String
  inline : Bool
  deriving DecidableEq, Repr

/-- The parts of a `discord.Embed` that `ShopPage.__create_embed` sets:
title, description, ordered fields, footer text. -/
structure Embed where
  title : String
  description : String
  fields : List EmbedField
  footerText : Option String
  deriving DecidableEq, Repr

/-- Helper for Python's `{n:,d}` format: given the decimal digits least
significant first, insert a comma after every third digit. -/
def commaChunks : List Char → List Char
  | a :: b :: c :: d :: rest => a :: b :: c :: ',' :: commaChunks (d :: rest)
  | l => l

/-- Python's `{n:,d}` number format: decimal digits grouped in threes from
the right with `,` as the thousands separator. -/
def pyFormatComma (n : Nat) : String :=
  String.mk ((commaChunks (Nat.toDigits 10 n).reverse).reverse)

/-- Python's `x if x else ""` on an `Optional[str]`: `None` and the falsy
empty string both give `""`, which coincides with `Option.getD ""`. -/
def pyOrEmpty (o : Option String) : String := o.getD ""

/-- The item field label of `__create_embed`:
`f'{item.icon if item.icon else ""} {item.name} | ` then the price in
`{:,d}` format between backticks, a space and the shop currency. -/
def itemFieldName (currency : String) (i : ShopItem) : String :=
  pyOrEmpty i.icon ++ " " ++ i.name ++ " | `" ++ pyFormatComma i.price ++ "` " ++ currency

/-- The separator rule of the item body: `(len(item.description) + 1) * "-"`,
a dash repeated one more time than the description's length. -/
def sepRule (d : String) : String := String.mk (List.replicate (d.length + 1) '-')

/-- The item field body of `__create_embed`:
`f'*{item.description}*\n{(len(item.description) + 1) * "-"}\n'` followed by
`"\n".join(map(lambda x: '> ' + x, item.fields))`. -/
def itemFieldValue (i : ShopItem) : String :=
  "*" ++ i.description ++ "*\n" ++ sepRule i.description ++ "\n" ++
    String.intercalate "\n" (i.fields.map (fun x => "> " ++ x))

/-- One iteration of the `for item in self.items` loop of
`__create_embed`: the embed field added for a listing entry. -/
def entryField (currency : String) : Entry → EmbedField
  | .category c =>
      { name := pyOrEmpty c.icon ++ " " ++ c.name
        value := pyOrEmpty c.description
        inline := false }
  | .item i =>
      { name := itemFieldName currency i
        value := itemFieldValue i
        inline := false }

/-- Embeds `ShopPage.__create_embed`: header `f'{self.title} | {self.shop.title}'`,
one field per listing entry, footer set from `self.footer`. -/
def createEmbed (shop : Shop) (title description : String) (footer : Option String)
    (items : List Entry) : Embed :=
  { title := title ++ " | " ++ shop.title
    description := description
    fields := items.map (entryField shop.currency)
    footerText := footer }

/-- The resolved `on_select` of an `ItemSelector`: the constructor stores
`on_select if on_select is not None else self.on_select_default`.  A
caller-supplied handler is opaque to the embedding and identified by a
number. -/
inductive OnSelect where
  | usualDefault : OnSelect
  | custom : Nat → OnSelect
  deriving DecidableEq, Repr

/-- Embeds `on_select if on_select is not None else self.on_select_default`. -/
def effectiveOnSelect : Option Nat → OnSelect
  | none => .usualDefault
  | some k => .custom k

/-- The message of `ItemSelector.on_select_default` (source spelling kept):
`f'Succesfully purchased {item.name}'`. -/
def onSelectDefaultMessage (i : ShopItem) : String :=
  "Succesfully purchased " ++ i.name

/-- State of `ItemSelector.__init__`: the bound listing and the resolved
handler. -/
structure ItemSelector where
  items : List Entry
  on_select : OnSelect
  deriving DecidableEq, Repr

/-- Constructor `ItemSelector.__init__` applied to the optional `on_select` argument. -/
def ItemSelector.init (items : List Entry) (on_select : Option Nat) : ItemSelector :=
  { items := items, on_select := effectiveOnSelect on_select }

/-- State of `CategorySelector.__init__`: the bound listing. -/
structure CategorySelector where
  categories : List Entry
  deriving DecidableEq, Repr

/-- Embeds `NavigationHandler.__init__(to_page, from_page)`: two page references. -/
structure NavigationHandler where
  to_page : PageId
  from_page : PageId
  deriving DecidableEq, Repr

/-- An interactive control added to a page via `add_item`: the selector the
page constructor attaches, or a `BackButton` holding its handler. -/
inductive Control where
  | categorySelector : CategorySelector → Control
  | itemSelector : ItemSelector → Control
  | backButton : NavigationHandler → Control
  deriving DecidableEq, Repr

/-- A `ShopPage` object's state after `__init__`: attributes plus the
`discord.ui.View` children list (`controls`). -/
structure Page where
  shop : Shop
  title : String
  items : List Entry
  description : String
  footer : Option String
  embed : Embed
  controls : List Control
  deriving DecidableEq, Repr

/-- The page store: every page reference resolves to its current state. -/
abbrev Heap := PageId → Page

/-- In-place mutation of the page a reference points at. -/
def updatePage (heap : Heap) (pid : PageId) (p : Page) : Heap :=
  fun q => if q = pid then p else heap q

/-- Exceptions the embedded code can raise, plus the two error types the
specification names.  `indexError` is Python's `IndexError` (raised by
`items[0]` on an empty list and by `[...][0]` on an empty comprehension),
`attributeError` is `AttributeError`, `valueError` is `ValueError` with its
message.  `unknownSelectionError` and `invalidListingError` are posited by
the specification only; no code in the module defines or raises them — they
are included so statements about them can be written down. -/
inductive PyError where
  | indexError : PyError
  | attributeError : PyError
  | valueError : String → PyError
  | unknownSelectionError : PyError
  | invalidListingError : PyError
  deriving DecidableEq, Repr

/-- Whether a fallible computation succeeded. -/
def exceptIsOk {ε α : Type} : Except ε α → Bool
  | .ok _ => true
  | .error _ => false

/-- Embeds `ShopPage.__init__` (= the spec's `buildPage`): computes the embed (the
loop is total, so it succeeds on any listing), then inspects `items[0]` —
raising `IndexError` on an empty listing — and attaches a
`CategorySelector` if the first element is a `ShopCategory`, otherwise an
`ItemSelector` with the optional `on_select`.  No homogeneity check is
performed anywhere. -/
def ShopPage.build (shop : Shop) (title description : String) (items : List Entry)
    (footer : Option String) (on_select : Option Nat) : Except PyError Page :=
  let embed := createEmbed shop title description footer items
  match items.head? with
  | none => .error .indexError
  | some first =>
      let selector : Control :=
        match first with
        | .category _ => .categorySelector { categories := items }
        | .item _ => .itemSelector (ItemSelector.init items on_select)
      .ok { shop := shop, title := title, items := items, description := description
            footer := footer, embed := embed, controls := [selector] }

/-- Embeds `isinstance(child, BackButton)` on a view child. -/
def isBackButton : Control → Bool
  | .backButton _ => true
  | _ => false

/-- Embeds `NavigationHandler.navigate`: if no child of `to_page` is a
`BackButton`, append `BackButton(self)` to its controls; return `to_page`. -/
def NavigationHandler.navigate (nav : NavigationHandler) (heap : Heap) : Heap × PageId :=
  let tp := heap nav.to_page
  if tp.controls.filter isBackButton = [] then
    (updatePage heap nav.to_page { tp with controls := tp.controls ++ [.backButton nav] },
      nav.to_page)
  else
    (heap, nav.to_page)

/-- Embeds `NavigationHandler.go_back`: returns `from_page`, touching nothing. -/
def NavigationHandler.go_back (nav : NavigationHandler) : PageId := nav.from_page

/-- Embeds `BackButton.callback`: the page the button's stored handler goes back
to (the button then re-renders the session to that page). -/
def BackButton.press (nav : NavigationHandler) : PageId := nav.go_back

/-- Embeds `ItemSelector.callback`: `[item for item in self.items if item.id ==
value][0]` — `IndexError` when nothing matches — then `await
self.on_select(interaction, selected_item)`.  The result records which
handler is invoked with which entry. -/
def ItemSelector.callback (s : ItemSelector) (v : String) : Except PyError (OnSelect × Entry) :=
  match (s.items.filter (fun e => e.id == v)).head? with
  | none => .error .indexError
  | some e => .ok (s.on_select, e)

/-- Embeds `CategorySelector.callback`: resolve `[category for category in
self.categories if category.id == value][0]` (`IndexError` when nothing
matches), then the dead guard `if not selected_category: raise
ValueError(...)`, then build `NavigationHandler(from_page=self.view,
to_page=selected_category.navigate_to)`, run `navigate()` (mutating the
heap) and `edit_message` to the returned page.  `selected_category` is only
accessed as a category (`navigate_to`), so a matching `ShopItem` in a mixed
listing raises `AttributeError` there. -/
def CategorySelector.callback (s : CategorySelector) (heap : Heap) (selfView : PageId)
    (v : String) : Heap × Except PyError PageId :=
  match (s.categories.filter (fun e => e.id == v)).head? with
  | none => (heap, .error .indexError)
  | some e =>
      if e.pyTruthy = false then
        (heap, .error (.valueError ("No category found with ID:" ++ v)))
      else
        match e with
        | .item _ => (heap, .error .attributeError)
        | .category c =>
            let r := NavigationHandler.navigate
              { to_page := c.navigate_to, from_page := selfView } heap
            (r.1, .ok r.2)

/-- A browsing session: the page store and the current page reference the
platform is showing. -/
structure Session where
  heap : Heap
  current : PageId

/-- One category-selection event as the platform delivers it: run the
callback; on success `edit_message` re-renders the session to the returned
page, on an exception the platform leaves the session on its current
page. -/
def Session.onCategorySelect (s : Session) (sel : CategorySelector) (selfView : PageId)
    (v : String) : Session :=
  match sel.callback s.heap selfView v with
  | (h, .ok pid) => { heap := h, current := pid }
  | (h, .error _) => { heap := h, current := s.current }

/-- Iterated `navigate()`: `navigateIter nav heap n` is the heap after `n`
calls of `nav.navigate`. -/
def navigateIter (nav : NavigationHandler) (heap : Heap) : Nat → Heap
  | 0 => heap
  | n + 1 => (nav.navigate (navigateIter nav heap n)).1

/-- The number of back-controls among a page's children. -/
def countBack (p : Page) : Nat := (p.controls.filter isBackButton).length

/-- Whether a callback outcome is a raised `ValueError`. -/
def raisesValueError : Except PyError PageId → Bool
  | .error (.valueError _) => true
  | _ => false

/-! ### Concrete sample data (for witnesses and counterexamples) -/

/-- A sample shop. -/
def demoShop : Shop := { title := "General Store", currency := "gold", footer := none, description := none }

/-- A sample item with a two-character description and one extra field. -/
def demoItem : ShopItem :=
  { id := "i1", name := "Hammer", description := "ab", price := 50, category_id := "c1"
    icon := none, fields := ["sturdy"] }

/-- A sample category pointing at page 1. -/
def demoCategory : ShopCategory :=
  { id := "c1", name := "Tools", navigate_to := 1, description := none, icon := none }

/-- Items with ids `a` and `b` for the selection-resolution scenario. -/
def demoItemA : ShopItem :=
  { id := "a", name := "Apple", description := "aa", price := 5, category_id := "c1"
    icon := none, fields := [] }

/-- Second item of the selection-resolution scenario. -/
def demoItemB : ShopItem :=
  { id := "b", name := "Bread", description := "bb", price := 7, category_id := "c1"
    icon := none, fields := [] }

/-- A sample item page with its selector and no back-control, as
`ShopPage.__init__` leaves it. -/
def demoPage : Page :=
  { shop := demoShop, title := "Tools", items := [Entry.item demoItem], description := "d"
    footer := none
    embed := createEmbed demoShop "Tools" "d" none [Entry.item demoItem]
    controls := [Control.itemSelector (ItemSelector.init [Entry.item demoItem] none)] }

/-- A heap in which every reference points at `demoPage`. -/
def demoHeap : Heap := fun _ => demoPage

/-! ### Navigation lemmas -/

/-- The call `navigate` always hands back the `to_page` reference. -/
theorem navigate_snd (nav : NavigationHandler) (heap : Heap) :
    (nav.navigate heap).2 = nav.to_page := by
  by_cases h : (heap nav.to_page).controls.filter isBackButton = [] <;>
    simp [NavigationHandler.navigate, h]

/-- What `navigate` leaves at `to_page`: the back-control is appended
exactly when none was present. -/
theorem navigate_to_controls (nav : NavigationHandler) (heap : Heap) :
    ((nav.navigate heap).1 nav.to_page).controls =
      (if (heap nav.to_page).controls.filter isBackButton = []
       then (heap nav.to_page).controls ++ [Control.backButton nav]
       else (heap nav.to_page).controls) := by
  by_cases h : (heap nav.to_page).controls.filter isBackButton = [] <;>
    simp [NavigationHandler.navigate, updatePage, h]

/-- The call `navigate` leaves every field of the page at `to_page` other than
`controls` untouched. -/
theorem navigate_to_fields (nav : NavigationHandler) (heap : Heap) :
    ((nav.navigate heap).1 nav.to_page).shop = (heap nav.to_page).shop ∧
    ((nav.navigate heap).1 nav.to_page).title = (heap nav.to_page).title ∧
    ((nav.navigate heap).1 nav.to_page).items = (heap nav.to_page).items ∧
    ((nav.navigate heap).1 nav.to_page).description = (heap nav.to_page).description ∧
    ((nav.navigate heap).1 nav.to_page).footer = (heap nav.to_page).footer ∧
    ((nav.navigate heap).1 nav.to_page).embed = (heap nav.to_page).embed := by
  by_cases h : (heap nav.to_page).controls.filter isBackButton = [] <;>
    simp [NavigationHandler.navigate, updatePage, h]

/-- The call `navigate` changes no page other than `to_page`. -/
theorem navigate_other (nav : NavigationHandler) (heap : Heap) (p : PageId)
    (hp : p ≠ nav.to_page) : (nav.navigate heap).1 p = heap p := by
  by_cases h : (heap nav.to_page).controls.filter isBackButton = [] <;>
    simp [NavigationHandler.navigate, updatePage, h, hp]

/-- After one `navigate`, a `to_page` that carried at most one back-control
carries exactly one. -/
theorem countBack_navigate (nav : NavigationHandler) (heap : Heap)
    (h : countBack (heap nav.to_page) ≤ 1) :
    countBack ((nav.navigate heap).1 nav.to_page) = 1 := by
  unfold countBack at *
  rw [navigate_to_controls]
  by_cases hf : (heap nav.to_page).controls.filter isBackButton = []
  · rw [if_pos hf, List.filter_append, hf]
    simp [isBackButton]
  · rw [if_neg hf]
    have hlen : (List.filter isBackButton (heap nav.to_page).controls).length ≠ 0 := by
      simpa [List.length_eq_zero] using hf
    omega

/-- Claim C3: `navigate()` is idempotent with respect to the back-control —
for every handler on a page carrying at most one back-control (all
library-built pages carry none), any number `n ≥ 1` of `navigate()` calls
leaves `to_page` with exactly one back-control, never two. -/
theorem navigate_iterated_one_back (heap : Heap) (nav : NavigationHandler) (n : Nat)
    (hn : 1 ≤ n) (h0 : countBack (heap nav.to_page) ≤ 1) :
    countBack (navigateIter nav heap n nav.to_page) = 1 := by
  induction n with
  | zero => omega
  | succ k ih =>
    rcases Nat.eq_zero_or_pos k with hk | hk
    · subst hk
      exact countBack_navigate nav heap h0
    · have hprev : countBack (navigateIter nav heap k nav.to_page) = 1 := ih hk
      exact countBack_navigate nav (navigateIter nav heap k) (by omega)

/-- Witness for C3: on the sample heap (page 0 has an item selector and no
back-control), navigating twice leaves exactly one back-control. -/
theorem navigate_iterated_one_back_witness :
    countBack (navigateIter { to_page := 0, from_page := 1 } demoHeap 2 0) = 1 :=
  navigate_iterated_one_back demoHeap { to_page := 0, from_page := 1 } 2
    (by decide) (by decide)

/-- Counterexample to claim C4 as stated: when the handler's `from_page`
and `to_page` alias the same page object (here reference 0, which carries
no back-control), `navigate()` appends a back-control to that object, so
`go_back()` does return the reference supplied at construction but the page
it denotes is NOT unmodified. -/
theorem go_back_round_trip_counterexample :
    NavigationHandler.go_back { to_page := 0, from_page := 0 } = 0 ∧
    (NavigationHandler.navigate { to_page := 0, from_page := 0 } demoHeap).1 0 ≠ demoHeap 0 := by
  exact ⟨rfl, by decide⟩

/-- Claim C4 (amended): provided `from_page` and `to_page` are distinct
page references, `go_back()` after `navigate()` returns the exact
`from_page` reference supplied at construction, and the page that reference
denotes is unmodified by both calls (`go_back` itself touches nothing). -/
theorem go_back_round_trip (heap : Heap) (nav : NavigationHandler)
    (hne : nav.from_page ≠ nav.to_page) :
    nav.go_back = nav.from_page ∧
    (nav.navigate heap).2 = nav.to_page ∧
    (nav.navigate heap).1 nav.from_page = heap nav.from_page := by
  exact ⟨rfl, navigate_snd nav heap, navigate_other nav heap nav.from_page hne⟩

/-- Witness for C4 (amended): navigating from page 0 to page 1 on the
sample heap leaves page 0 exactly as it was, and `go_back` returns 0. -/
theorem go_back_round_trip_witness :
    NavigationHandler.go_back { to_page := 1, from_page := 0 } = 0 ∧
    (NavigationHandler.navigate { to_page := 1, from_page := 0 } demoHeap).2 = 1 ∧
    (NavigationHandler.navigate { to_page := 1, from_page := 0 } demoHeap).1 0 = demoHeap 0 :=
  go_back_round_trip demoHeap { to_page := 1, from_page := 0 } (by decide)

/-- Claim C5: back-control staleness — if `to_page` T (initially without a
back-control) is first reached by navigating from page A and later by a
different handler from page B, the idempotent check skips re-adding, so T's
only back-control is still the one bound to the first handler and pressing
it returns A, not B. -/
theorem back_control_staleness (heap : Heap) (A B T : PageId)
    (h0 : (heap T).controls.filter isBackButton = []) (hAB : A ≠ B) :
    (((NavigationHandler.navigate { to_page := T, from_page := B }
        ((NavigationHandler.navigate { to_page := T, from_page := A } heap).1)).1 T).controls.filter
          isBackButton
        = [Control.backButton { to_page := T, from_page := A }]) ∧
    BackButton.press { to_page := T, from_page := A } = A ∧
    BackButton.press { to_page := T, from_page := A } ≠ B := by
  have h1 : ((NavigationHandler.navigate { to_page := T, from_page := A } heap).1 T).controls
      = (heap T).controls ++ [Control.backButton { to_page := T, from_page := A }] := by
    have := navigate_to_controls { to_page := T, from_page := A } heap
    simpa [h0] using this
  have hfilter1 : ((NavigationHandler.navigate { to_page := T, from_page := A } heap).1 T).controls.filter
      isBackButton = [Control.backButton { to_page := T, from_page := A }] := by
    rw [h1, List.filter_append, h0]
    simp [isBackButton]
  refine ⟨?_, rfl, hAB⟩
  have h2 := navigate_to_controls { to_page := T, from_page := B }
    ((NavigationHandler.navigate { to_page := T, from_page := A } heap).1)
  rw [h2]
  rw [if_neg (by simp [hfilter1])]
  exact hfilter1

/-- Witness for C5: on the sample heap, reaching page 0 first from page 1
then from page 2 leaves its sole back-control bound to the first handler,
which goes back to 1. -/
theorem back_control_staleness_witness :
    (((NavigationHandler.navigate { to_page := 0, from_page := 2 }
        ((NavigationHandler.navigate { to_page := 0, from_page := 1 } demoHeap).1)).1 0).controls.filter
          isBackButton
        = [Control.backButton { to_page := 0, from_page := 1 }]) ∧
    BackButton.press { to_page := 0, from_page := 1 } = 1 :=
  ⟨(back_control_staleness demoHeap 1 2 0 (by decide) (by decide)).1,
   (back_control_staleness demoHeap 1 2 0 (by decide) (by decide)).2.1⟩

/-- Counterexample to claim C10 as stated: when `from_page` aliases
`to_page` (reference 0 of the sample heap, no back-control present),
`navigate()` appends a back-control there, so the page `from_page` denotes
goes from one control to two — `from_page` is NOT entirely unchanged. -/
theorem navigate_frame_counterexample :
    ((NavigationHandler.navigate { to_page := 0, from_page := 0 } demoHeap).1 0).controls.length = 2 ∧
    (demoHeap 0).controls.length = 1 ∧
    (NavigationHandler.navigate { to_page := 0, from_page := 0 } demoHeap).1 0 ≠ demoHeap 0 := by
  refine ⟨by decide, by decide, by decide⟩

/-- Claim C10 (amended): provided `from_page` and `to_page` are distinct
page references, `navigate()` mutates nothing except possibly appending one
`BackButton` to `to_page`'s controls: every other page is untouched,
`to_page`'s `shop`, `title`, `items`, `description`, `footer` and `embed`
are unchanged, and the page `from_page` denotes is entirely unchanged. -/
theorem navigate_frame_property (heap : Heap) (nav : NavigationHandler)
    (hne : nav.from_page ≠ nav.to_page) :
    (∀ p, p ≠ nav.to_page → (nav.navigate heap).1 p = heap p) ∧
    ((nav.navigate heap).1 nav.to_page).shop = (heap nav.to_page).shop ∧
    ((nav.navigate heap).1 nav.to_page).title = (heap nav.to_page).title ∧
    ((nav.navigate heap).1 nav.to_page).items = (heap nav.to_page).items ∧
    ((nav.navigate heap).1 nav.to_page).description = (heap nav.to_page).description ∧
    ((nav.navigate heap).1 nav.to_page).footer = (heap nav.to_page).footer ∧
    ((nav.navigate heap).1 nav.to_page).embed = (heap nav.to_page).embed ∧
    (((nav.navigate heap).1 nav.to_page).controls = (heap nav.to_page).controls ∨
      ((nav.navigate heap).1 nav.to_page).controls
        = (heap nav.to_page).controls ++ [Control.backButton nav]) ∧
    (nav.navigate heap).1 nav.from_page = heap nav.from_page := by
  obtain ⟨f1, f2, f3, f4, f5, f6⟩ := navigate_to_fields nav heap
  refine ⟨fun p hp => navigate_other nav heap p hp, f1, f2, f3, f4, f5, f6, ?_,
    navigate_other nav heap nav.from_page hne⟩
  rw [navigate_to_controls]
  by_cases h : (heap nav.to_page).controls.filter isBackButton = []
  · right; rw [if_pos h]
  · left; rw [if_neg h]

/-- Witness for C10 (amended): navigating from page 0 to page 1 on the
sample heap leaves page 0 untouched and preserves page 1's embed. -/
theorem navigate_frame_property_witness :
    (NavigationHandler.navigate { to_page := 1, from_page := 0 } demoHeap).1 0 = demoHeap 0 ∧
    ((NavigationHandler.navigate { to_page := 1, from_page := 0 } demoHeap).1 1).embed
      = (demoHeap 1).embed :=
  ⟨(navigate_frame_property demoHeap { to_page := 1, from_page := 0 } (by decide)).2.2.2.2.2.2.2.2,
   (navigate_frame_property demoHeap { to_page := 1, from_page := 0 } (by decide)).2.2.2.2.2.2.1⟩

/-- Counterexample to claim C1 as stated: a mixed listing (an item and a
category together) constructs successfully instead of failing, and the
empty listing fails with `IndexError` (from `items[0]`) — the code defines
no `InvalidListingError` and raises none. -/
theorem build_listing_counterexample :
    exceptIsOk (ShopPage.build demoShop "T" "D"
      [Entry.item demoItem, Entry.category demoCategory] none none) = true ∧
    ShopPage.build demoShop "T" "D" [] none none = Except.error PyError.indexError ∧
    PyError.indexError ≠ PyError.invalidListingError := by
  refine ⟨rfl, rfl, by decide⟩

/-- Claim C1 (amended): page construction succeeds exactly on non-empty
listings, homogeneous or not (the selector is chosen by the first element's
type alone; no homogeneity check exists), and the empty listing fails with
`IndexError`, not `InvalidListingError`. -/
theorem build_ok_iff_nonempty (shop : Shop) (t d : String) (items : List Entry)
    (f : Option String) (os : Option Nat) :
    exceptIsOk (ShopPage.build shop t d items f os) = !items.isEmpty ∧
    ShopPage.build shop t d [] f os = Except.error PyError.indexError := by
  constructor
  · cases items with
    | nil => rfl
    | cons e rest => cases e <;> rfl
  · rfl

/-- Counterexample to claim C2 as stated: selecting the id `zzz`, which no
listing entry carries, makes `CategorySelector.callback` raise `IndexError`
(the comprehension `[...][0]` on an empty match list), not the
`UnknownSelectionError` the claim names — no such error type exists in the
code. -/
theorem unknown_selection_counterexample :
    (CategorySelector.callback { categories := [Entry.category demoCategory] }
        demoHeap 0 "zzz").2 = Except.error PyError.indexError ∧
    PyError.indexError ≠ PyError.unknownSelectionError := by
  refine ⟨rfl, by decide⟩

/-- Claim C2 (amended): a selection event whose chosen id is absent from
the widget's bound listing raises `IndexError` (in either selector), and
the session's heap and current page are exactly as before the event — no
re-render happens. -/
theorem unknown_selection_unchanged (s : Session) (sel : CategorySelector)
    (isel : ItemSelector) (selfView : PageId) (v : String)
    (hc : ∀ e ∈ sel.categories, e.id ≠ v)
    (hi : ∀ e ∈ isel.items, e.id ≠ v) :
    sel.callback s.heap selfView v = (s.heap, Except.error PyError.indexError) ∧
    s.onCategorySelect sel selfView v = s ∧
    isel.callback v = Except.error PyError.indexError := by
  have hcf : sel.categories.filter (fun e => e.id == v) = [] :=
    List.filter_eq_nil_iff.mpr (fun e he => by simpa using hc e he)
  have hif : isel.items.filter (fun e => e.id == v) = [] :=
    List.filter_eq_nil_iff.mpr (fun e he => by simpa using hi e he)
  have h1 : sel.callback s.heap selfView v = (s.heap, Except.error PyError.indexError) := by
    unfold CategorySelector.callback
    rw [hcf]
    rfl
  refine ⟨h1, ?_, ?_⟩
  · unfold Session.onCategorySelect
    rw [h1]
  · unfold ItemSelector.callback
    rw [hif]
    rfl

/-- Witness for C2 (amended): picking id `zzz` against the sample listings
raises `IndexError` from the item selector and leaves the session as it
was. -/
theorem unknown_selection_unchanged_witness :
    (ItemSelector.init [Entry.item demoItem] none).callback "zzz"
      = Except.error PyError.indexError ∧
    (CategorySelector.callback { categories := [Entry.category demoCategory] }
        demoHeap 7 "zzz")
      = (demoHeap, Except.error PyError.indexError) :=
  ⟨(unknown_selection_unchanged { heap := demoHeap, current := 0 }
      { categories := [Entry.category demoCategory] }
      (ItemSelector.init [Entry.item demoItem] none) 7 "zzz"
      (by decide) (by decide)).2.2,
   (unknown_selection_unchanged { heap := demoHeap, current := 0 }
      { categories := [Entry.category demoCategory] }
      (ItemSelector.init [Entry.item demoItem] none) 7 "zzz"
      (by decide) (by decide)).1⟩

/-- Claim C9: the guard `if not selected_category: raise ValueError(...)`
in `CategorySelector.callback` is unreachable — either the comprehension's
`[0]` raises first, or the match is a dataclass instance, which is always
truthy — so no input makes the callback raise a `ValueError`. -/
theorem category_value_error_unreachable (heap : Heap) (sel : CategorySelector)
    (selfView : PageId) (v : String) :
    raisesValueError (sel.callback heap selfView v).2 = false := by
  unfold CategorySelector.callback
  cases h : (sel.categories.filter (fun e => e.id == v)).head? with
  | none => rfl
  | some e => cases e <;> simp [Entry.pyTruthy, raisesValueError]

/-- The separator the claim C6 describes in its own words: a rule whose
length EQUALS the description's length.  Stated only to be compared with
the code's rendering, which uses one dash more. -/
def claimedItemValueC6 (i : ShopItem) : String :=
  "*" ++ i.description ++ "*\n" ++ String.mk (List.replicate i.description.length '-') ++ "\n" ++
    String.intercalate "\n" (i.fields.map (fun x => "> " ++ x))

/-- Counterexample to claim C6 as stated: for the sample item (description
`ab`, length 2) the rendered body differs from the body the claim
describes, because the separator rule is three dashes, not two. -/
theorem separator_length_counterexample :
    itemFieldValue demoItem ≠ claimedItemValueC6 demoItem ∧
    sepRule "ab" = "---" ∧
    ("ab" : String).length = 2 := by
  refine ⟨by decide, by decide, by decide⟩

/-- Claim C6 (amended): a category entry renders with label = icon (empty
when absent), a space and the name, and body = description or the empty
string; an item entry renders with label = icon+name+formatted
price+currency and body = the emphasized description, a separator rule
whose length equals the description's length PLUS ONE, then each extra
field on its own line behind a quote marker. -/
theorem entry_field_rendering (cur : String) (i : ShopItem) (c : ShopCategory) :
    entryField cur (Entry.category c)
      = { name := pyOrEmpty c.icon ++ " " ++ c.name
          value := pyOrEmpty c.description
          inline := false } ∧
    (entryField cur (Entry.item i)).name = itemFieldName cur i ∧
    ∃ sep : String,
      (entryField cur (Entry.item i)).value
        = "*" ++ i.description ++ "*" ++ "\n" ++ sep ++ "\n" ++
            String.intercalate "\n" (i.fields.map (fun x => "> " ++ x)) ∧
      sep.length = i.description.length + 1 := by
  refine ⟨rfl, rfl, sepRule i.description, ?_, ?_⟩
  · show itemFieldValue i = _
    unfold itemFieldValue
    rw [show ("*\n" : String) = "*" ++ "\n" from rfl]
    simp [String.append_assoc]
  · show (List.replicate (i.description.length + 1) '-').length = i.description.length + 1
    exact List.length_replicate _ _

/-- Claim C7: an item priced 1234 in a shop whose currency is `gold`
renders a label containing the substring `1,234` (thousands separator
applied) and ending in the substring `gold` (currency appended after the
price), whatever its other attributes. -/
theorem price_formatting_contains (iid : String) (icon : Option String)
    (nm ds cid : String) (flds : List String) :
    ∃ s t u : String,
      itemFieldName "gold"
          { id := iid, name := nm, description := ds, price := 1234, category_id := cid
            icon := icon, fields := flds }
        = s ++ ("1,234" ++ t) ∧
      itemFieldName "gold"
          { id := iid, name := nm, description := ds, price := 1234, category_id := cid
            icon := icon, fields := flds }
        = u ++ "gold" := by
  have hname : itemFieldName "gold"
      { id := iid, name := nm, description := ds, price := 1234, category_id := cid
        icon := icon, fields := flds }
      = pyOrEmpty icon ++ " " ++ nm ++ " | `" ++ pyFormatComma 1234 ++ "` " ++ "gold" := rfl
  have hprice : pyFormatComma 1234 = "1,234" := by decide
  refine ⟨pyOrEmpty icon ++ " " ++ nm ++ " | `", "` " ++ "gold",
    pyOrEmpty icon ++ " " ++ nm ++ " | `" ++ "1,234" ++ "` ", ?_, ?_⟩
  · rw [hname, hprice]
    simp [String.append_assoc]
  · rw [hname, hprice]

/-- The first match of the selection comprehension on an item listing: with
listing-scoped unique ids, filtering by the chosen id finds exactly the
matching item first. -/
theorem filter_map_item_head (itms : List ShopItem) (v : String) (it : ShopItem)
    (hmem : it ∈ itms) (hid : it.id = v)
    (huniq : ∀ x ∈ itms, x.id = v → x = it) :
    ((itms.map Entry.item).filter (fun e => e.id == v)).head? = some (Entry.item it) := by
  induction itms with
  | nil => simp at hmem
  | cons x rest ih =>
    by_cases hx : x.id = v
    · have hxit : x = it := huniq x (List.mem_cons_self x rest) hx
      subst hxit
      simp [Entry.id, hx]
    · have hit : it ∈ rest := by
        rcases List.mem_cons.mp hmem with h | h
        · exact absurd (by rw [← h]; exact hid) hx
        · exact h
      have hrec := ih hit (fun y hy hyv => huniq y (List.mem_cons_of_mem x hy) hyv)
      simpa [Entry.id, hx] using hrec

/-- Claim C8: when the listing holds an item whose id is the chosen value
(and ids are listing-unique), `ItemSelector.callback` invokes the bound
handler — the `on_select` resolved at construction, which is the default
purchase-acknowledgment handler when none was supplied — with exactly that
item. -/
theorem item_selection_resolution (itms : List ShopItem) (os : Option Nat) (v : String)
    (it : ShopItem) (hmem : it ∈ itms) (hid : it.id = v)
    (huniq : ∀ x ∈ itms, x.id = v → x = it) :
    (ItemSelector.init (itms.map Entry.item) os).callback v
      = Except.ok (effectiveOnSelect os, Entry.item it) ∧
    (ItemSelector.init (itms.map Entry.item) none).on_select = OnSelect.usualDefault := by
  refine ⟨?_, rfl⟩
  unfold ItemSelector.callback ItemSelector.init
  rw [filter_map_item_head itms v it hmem hid huniq]

/-- Witness for C8: in the listing with ids `a` and `b`, selecting `b`
(with no handler supplied) invokes the default handler with the item whose
id is `b`. -/
theorem item_selection_resolution_witness :
    (ItemSelector.init ([demoItemA, demoItemB].map Entry.item) none).callback "b"
      = Except.ok (effectiveOnSelect none, Entry.item demoItemB) :=
  (item_selection_resolution [demoItemA, demoItemB] none "b" demoItemB
    (by decide) (by decide) (by decide)).1

end ShopiPy
